import Mathlib

/-!
Shallow embedding of the PGS (Presentation Graphic Stream) decoder from
`src/spgill/media/pgs.py`, together with theorems settling the frozen claims
about its specification.

Modelling conventions:
* A byte string is a `List Nat` (each entry intended `< 256`; where a claim
  needs this, it is an explicit hypothesis).
* Python slicing `data[a:b]` with non-negative bounds clamps at the ends and
  never fails; it is `(data.drop a).take (b - a)`.
* `int.from_bytes` (big-endian, the Python default) of an empty byte string
  is `0`.
* Python float division by 90 is modelled as exact division in `ℚ`; every
  concrete value appearing in the claims (`9000 / 90`, `0 / 90`) is exactly
  representable in binary floating point, so the model and the code agree on
  them.
* Python exceptions are modelled by `Except PgsError`, with one constructor
  per distinct raise site of the source.
-/

namespace PGS

/-- Models `int.from_bytes(bs, "big")`: big-endian interpretation of a byte list. -/
def intFromBytes (bs : List Nat) : Nat :=
  bs.foldl (fun acc b => acc * 256 + b) 0

/-- Python slice `data[a:b]` (non-negative bounds): clamped, total.
Models `BaseSegment._get_bytes`. -/
def getBytes (data : List Nat) (a b : Nat) : List Nat :=
  (data.drop a).take (b - a)

/-- Models `BaseSegment._get_int`: big-endian integer of the slice `data[a:b]`. -/
def getInt (data : List Nat) (a b : Nat) : Nat :=
  intFromBytes (getBytes data a b)

/-- The five segment-kind bytes of `SegmentType` (20, 21, 22, 23, 128). -/
inductive SegmentType where
  | PDS
  | ODS
  | PCS
  | WDS
  | END
deriving DecidableEq, Repr

/-- Models `SegmentType(n)`: `none` stands for the `ValueError` Python raises for a byte
outside {20, 21, 22, 23, 128}. -/
def segmentTypeOfNat : Nat → Option SegmentType
  | 20 => some .PDS
  | 21 => some .ODS
  | 22 => some .PCS
  | 23 => some .WDS
  | 128 => some .END
  | _ => none

/-- Enum `CompositionState`, byte values {0, 64, 128}. -/
inductive CompositionState where
  | Normal
  | AcquisitionPoint
  | EpochStart
deriving DecidableEq, Repr

/-- Models `CompositionState(n)`; `none` stands for the `ValueError` on other bytes. -/
def compositionStateOfNat : Nat → Option CompositionState
  | 0 => some .Normal
  | 64 => some .AcquisitionPoint
  | 128 => some .EpochStart
  | _ => none

/-- Enum `SequenceFlag`, byte values {64, 128, 192}. -/
inductive SequenceFlag where
  | Last
  | First
  | FirstAndLast
deriving DecidableEq, Repr

/-- Models `SequenceFlag(n)`; `none` stands for the `ValueError` on other bytes. -/
def sequenceFlagOfNat : Nat → Option SequenceFlag
  | 64 => some .Last
  | 128 => some .First
  | 192 => some .FirstAndLast
  | _ => none

/-- One constructor per distinct raise site of the PGS module. -/
inductive PgsError where
  /-- Raised as `InvalidSegmentError` in `BaseSegment.__init__` on a magic
  number different from b"PG" (the error the spec calls MalformedHeader). -/
  | invalidSegment
  /-- Raised as `ValueError` from `SegmentType(...)` in `BaseSegment._make_segment`
  (the error the spec calls UnknownSegmentType). -/
  | unknownSegmentType
  /-- Raised as `ValueError` from `CompositionState(...)` in
  `PresentationCompositionSegment._post_init`. -/
  | invalidCompositionState
  /-- Raised as `ValueError` from `SequenceFlag(...)` in
  `ObjectDefinitionSegment._post_init`. -/
  | invalidSequenceFlag
  /-- Raised as `AssertionError` from the composition-count assert in
  `PresentationCompositionSegment._post_init` (spec: FieldCountMismatch). -/
  | compositionCountMismatch
  /-- Raised as `AssertionError` from the window-count assert in
  `WindowDefinitionSegment._post_init` (spec: FieldCountMismatch). -/
  | windowCountMismatch
  /-- Raised as `AssertionError` from the image-data-length assert in
  `ObjectDefinitionSegment._post_init` (spec: ImageDataLengthMismatch). -/
  | imageDataLengthMismatch
  /-- Raised as `StopIteration` from `next(...)` in `DisplaySet.__init__` when no
  segment of the looked-for type exists in the group. -/
  | stopIteration
deriving DecidableEq, Repr

/-- Dataclass `CompositionObject`: crop fields are `none` unless the cropped
flag was set. -/
structure CompositionObject where
  object_id : Nat
  window_id : Nat
  cropped : Bool
  x_offset : Nat
  y_offset : Nat
  crop_x_offset : Option Nat := none
  crop_y_offset : Option Nat := none
  crop_width : Option Nat := none
  crop_height : Option Nat := none
deriving DecidableEq, Repr

/-- The `while chunk:` loop of `PresentationCompositionSegment._post_init`:
reads 8-byte chunks from the `BytesIO` holding `data[11:]`, and 8 further
bytes when the cropped flag of the chunk is set.  `rest` is the unread part
of the stream; `BytesIO.read(8)` is `rest.take 8` and returns fewer bytes at
the end of the stream, where a non-empty short chunk still enters the loop
body. -/
def parseCompositions (rest : List Nat) : List CompositionObject :=
  if h : rest = [] then []
  else
    let chunk := rest.take 8
    if getInt chunk 3 4 ≠ 0 then
      -- chunk += composition_data.read(8); the two reads together are rest.take 16
      let chunk2 := rest.take 16
      { object_id := getInt chunk 0 2
        window_id := getInt chunk 2 3
        cropped := true
        x_offset := getInt chunk 4 6
        y_offset := getInt chunk 6 8
        crop_x_offset := some (getInt chunk2 8 10)
        crop_y_offset := some (getInt chunk2 10 12)
        crop_width := some (getInt chunk2 12 14)
        crop_height := some (getInt chunk2 14 16) } :: parseCompositions (rest.drop 16)
    else
      { object_id := getInt chunk 0 2
        window_id := getInt chunk 2 3
        cropped := false
        x_offset := getInt chunk 4 6
        y_offset := getInt chunk 6 8 } :: parseCompositions (rest.drop 8)
termination_by rest.length
decreasing_by
  all_goals
    have hp : 0 < rest.length := List.length_pos.mpr h
    simp only [List.length_drop]
    omega

/-- Payload of a `PresentationCompositionSegment` after `_post_init`. -/
structure PresentationCompositionSegment where
  width : Nat
  height : Nat
  frame_rate : Nat
  number : Nat
  state : CompositionState
  palette_update : Bool
  palette_id : Nat
  num_compositions : Nat
  compositions : List CompositionObject
deriving DecidableEq, Repr

/-- Derived property `PresentationCompositionSegment.is_start`. -/
def PresentationCompositionSegment.is_start (p : PresentationCompositionSegment) : Bool :=
  p.state = CompositionState.EpochStart ∨ p.state = CompositionState.AcquisitionPoint

/-- Models `PresentationCompositionSegment._post_init` on the payload `data`
(the chunk with the 13 header bytes removed).  Field offsets are relative to
the payload.  The `CompositionState(...)` call can raise `ValueError`; the
final `assert` compares the number of parsed composition objects with the
declared count at offset 10. -/
def PresentationCompositionSegment.postInit (data : List Nat) :
    Except PgsError PresentationCompositionSegment :=
  match compositionStateOfNat (getInt data 7 8) with
  | none => .error .invalidCompositionState
  | some st =>
    let comps := parseCompositions (data.drop 11)
    if comps.length = getInt data 10 11 then
      .ok { width := getInt data 0 2
            height := getInt data 2 4
            frame_rate := getInt data 4 5
            number := getInt data 5 7
            state := st
            palette_update := getInt data 8 9 ≠ 0
            palette_id := getInt data 9 10
            num_compositions := getInt data 10 11
            compositions := comps }
    else .error .compositionCountMismatch

/-- Dataclass `WindowObject`. -/
structure WindowObject where
  id : Nat
  x_offset : Nat
  y_offset : Nat
  width : Nat
  height : Nat
deriving DecidableEq, Repr

/-- The `while chunk:` loop of `WindowDefinitionSegment._post_init`: 9-byte
chunks read from the `BytesIO` holding `data[1:]`; a trailing short chunk
still enters the loop body. -/
def parseWindows (rest : List Nat) : List WindowObject :=
  if h : rest = [] then []
  else
    let chunk := rest.take 9
    { id := getInt chunk 0 1
      x_offset := getInt chunk 1 3
      y_offset := getInt chunk 3 5
      width := getInt chunk 5 7
      height := getInt chunk 7 9 } :: parseWindows (rest.drop 9)
termination_by rest.length
decreasing_by
  have hp : 0 < rest.length := List.length_pos.mpr h
  simp only [List.length_drop]
  omega

/-- Payload of a `WindowDefinitionSegment` after `_post_init`. -/
structure WindowDefinitionSegment where
  num_windows : Nat
  windows : List WindowObject
deriving DecidableEq, Repr

/-- Models `WindowDefinitionSegment._post_init`: window count at payload
offset 0, then 9-byte window records to exhaustion, then the count assert. -/
def WindowDefinitionSegment.postInit (data : List Nat) :
    Except PgsError WindowDefinitionSegment :=
  let ws := parseWindows (data.drop 1)
  if ws.length = getInt data 0 1 then
    .ok { num_windows := getInt data 0 1, windows := ws }
  else .error .windowCountMismatch

/-- Dataclass `Palette` (one PDS color record). -/
structure Palette where
  ID : Nat
  Y : Nat
  Cr : Nat
  Cb : Nat
  Alpha : Nat
deriving DecidableEq, Repr

/-- The `for i in range(0, len(palette_data), 5)` loop of
`PaletteDefinitionSegment._post_init`: fixed 5-byte records sliced from the
payload remainder; a trailing chunk shorter than 5 bytes is still turned
into a record, its out-of-range fields reading as the empty slice (0). -/
def parsePalettes (rest : List Nat) : List Palette :=
  if h : rest = [] then []
  else
    let chunk := rest.take 5
    { ID := getInt chunk 0 1
      Y := getInt chunk 1 2
      Cr := getInt chunk 2 3
      Cb := getInt chunk 3 4
      Alpha := getInt chunk 4 5 } :: parsePalettes (rest.drop 5)
termination_by rest.length
decreasing_by
  have hp : 0 < rest.length := List.length_pos.mpr h
  simp only [List.length_drop]
  omega

/-- Payload of a `PaletteDefinitionSegment` after `_post_init`.  Decoding a
palette payload never fails. -/
structure PaletteDefinitionSegment where
  palette_id : Nat
  version : Nat
  palettes : List Palette
deriving DecidableEq, Repr

/-- Models `PaletteDefinitionSegment._post_init`. -/
def PaletteDefinitionSegment.postInit (data : List Nat) : PaletteDefinitionSegment :=
  { palette_id := getInt data 0 1
    version := getInt data 1 2
    palettes := parsePalettes (data.drop 2) }

/-- Payload of an `ObjectDefinitionSegment` after `_post_init`.
`image_data_len` is an `Int` because the source computes it as a Python int
minus 4, which is negative when the 24-bit field is below 4. -/
structure ObjectDefinitionSegment where
  id : Nat
  version : Nat
  in_sequence : SequenceFlag
  image_data_len : Int
  image_width : Nat
  image_height : Nat
  image_data : List Nat
deriving DecidableEq, Repr

/-- Models `ObjectDefinitionSegment._post_init`: the `SequenceFlag(...)` call
can raise `ValueError`; the final `assert` compares the length of the
trailing image buffer with the declared length (24-bit field minus 4). -/
def ObjectDefinitionSegment.postInit (data : List Nat) :
    Except PgsError ObjectDefinitionSegment :=
  match sequenceFlagOfNat (getInt data 3 4) with
  | none => .error .invalidSequenceFlag
  | some fl =>
    let image_data := data.drop 11
    let image_data_len : Int := (getInt data 4 7 : Int) - 4
    if (image_data.length : Int) = image_data_len then
      .ok { id := getInt data 0 2
            version := getInt data 2 3
            in_sequence := fl
            image_data_len := image_data_len
            image_width := getInt data 7 9
            image_height := getInt data 9 11
            image_data := image_data }
    else .error .imageDataLengthMismatch

/-- Kind-specific decoded payload (the subclass of `BaseSegment` that was
instantiated; `EndSegment` has no fields of its own). -/
inductive SegmentData where
  | pcs : PresentationCompositionSegment → SegmentData
  | wds : WindowDefinitionSegment → SegmentData
  | pds : PaletteDefinitionSegment → SegmentData
  | ods : ObjectDefinitionSegment → SegmentData
  | endSeg : SegmentData
deriving DecidableEq, Repr

/-- A decoded segment: the fields set by `BaseSegment.__init__` plus the
subclass payload.  Timestamps are in milliseconds, modelled in `ℚ`. -/
structure Segment where
  magic_number : List Nat
  presentation_timestamp_ms : ℚ
  decoding_timestamp_ms : ℚ
  type : SegmentType
  size : Nat
  data : SegmentData
deriving DecidableEq, Repr

/-- Dispatch of `self._post_init(data)` to the subclass selected by the
segment kind (`SegmentTypeClsMap`): `PDS` decoding never fails, `END` has no
post-init work. -/
def postInitDispatch (t : SegmentType) (data : List Nat) : Except PgsError SegmentData :=
  match t with
  | .PCS => (PresentationCompositionSegment.postInit data).map SegmentData.pcs
  | .WDS => (WindowDefinitionSegment.postInit data).map SegmentData.wds
  | .PDS => .ok (SegmentData.pds (PaletteDefinitionSegment.postInit data))
  | .ODS => (ObjectDefinitionSegment.postInit data).map SegmentData.ods
  | .END => .ok SegmentData.endSeg

/-- Models `BaseSegment.__init__` for the subclass of kind `t` (already
determined from the chunk by `_make_segment`): splits the chunk into the
13-byte header and the payload, validates the magic bytes b"PG" =
`[80, 71]`, decodes the header fields (dividing the 90 kHz timestamps by
90), and runs the subclass `_post_init` on the payload. -/
def segmentInit (t : SegmentType) (chunk : List Nat) : Except PgsError Segment :=
  let header := chunk.take 13
  let magic := getBytes header 0 2
  if magic ≠ [80, 71] then .error .invalidSegment
  else
    (postInitDispatch t (chunk.drop 13)).map
    fun payload =>
      { magic_number := magic
        presentation_timestamp_ms := (getInt header 2 6 : ℚ) / 90
        decoding_timestamp_ms := (getInt header 6 10 : ℚ) / 90
        type := t
        size := getInt header 11 13
        data := payload }

/-- Models `BaseSegment._make_segment`: reads the kind byte at offset 10 of
the chunk (`ValueError` on an unknown value) and hands the chunk to the
matching subclass constructor. -/
def makeSegment (chunk : List Nat) : Except PgsError Segment :=
  match segmentTypeOfNat (getInt chunk 10 11) with
  | none => .error .unknownSegmentType
  | some t => segmentInit t chunk

/-- The chunking loop of the `PGSReader.segments` generator: read 13 header
bytes, read the declared payload size on top, yield the chunk, repeat until
the data is exhausted.  A trailing run of fewer than 13 bytes still forms a
chunk. -/
def segmentChunks (d : List Nat) : List (List Nat) :=
  if h : d = [] then []
  else
    let chunk := d.take 13
    let size := getInt chunk 11 13
    (chunk ++ (d.drop 13).take size) :: segmentChunks ((d.drop 13).drop size)
termination_by d.length
decreasing_by
  have hp : 0 < d.length := List.length_pos.mpr h
  simp only [List.length_drop]
  omega

/-- Generator semantics: decode the chunks in order, yielding the prefix of
successfully decoded segments: a raised exception ends the generator, giving
the terminal error in the second component. -/
def runSegments : List (List Nat) → List Segment × Option PgsError
  | [] => ([], none)
  | c :: cs =>
    match makeSegment c with
    | .error e => ([], some e)
    | .ok s =>
      let r := runSegments cs
      (s :: r.1, r.2)

/-- Observable output of one full traversal of the `PGSReader.segments`
generator over raw stream data: the yielded segments plus the terminal
exception, if any. -/
def segmentsOutput (data : List Nat) : List Segment × Option PgsError :=
  runSegments (segmentChunks data)

/-- Class `DisplaySet`: the group of segments plus the fields extracted by
`DisplaySet.__init__`. -/
structure DisplaySet where
  segments : List Segment
  PCS : Segment
  WDS : List Segment
  PDS : List Segment
  ODS : List Segment
  END : Segment
deriving DecidableEq, Repr

/-- Models `DisplaySet.__init__`: `next(...)` takes the first segment of the
wanted type and raises `StopIteration` when there is none; the `WDS`, `PDS`
and `ODS` lists collect every segment of their type, in order.  Nothing
rejects a second PCS segment. -/
def DisplaySet.init (segments : List Segment) : Except PgsError DisplaySet :=
  match segments.find? (fun s => s.type = SegmentType.PCS) with
  | none => .error .stopIteration
  | some pcsSeg =>
    match segments.find? (fun s => s.type = SegmentType.END) with
    | none => .error .stopIteration
    | some endSeg =>
      .ok { segments := segments
            PCS := pcsSeg
            WDS := segments.filter (fun s => s.type = SegmentType.WDS)
            PDS := segments.filter (fun s => s.type = SegmentType.PDS)
            ODS := segments.filter (fun s => s.type = SegmentType.ODS)
            END := endSeg }

/-- Palette records of a segment, as `PaletteDefinitionSegment.palettes` is
accessed on the members of `DisplaySet.PDS`.  Segments produced by the
decoder with type `PDS` always carry a `pds` payload; on any other payload
the attribute does not exist and the access is never made. -/
def Segment.palettes : Segment → List Palette
  | { data := SegmentData.pds p, .. } => p.palettes
  | _ => []

/-- Models `DisplaySet.get_palettes`: a 256-entry table initialised to
transparent black records `{ID := i, 0, 0, 0, 0}`, then overwritten at index
`record.ID` for every record of every PDS segment, in order. -/
def DisplaySet.get_palettes (ds : DisplaySet) : List Palette :=
  let palette_list := (List.range 256).map fun i => { ID := i, Y := 0, Cr := 0, Cb := 0, Alpha := 0 }
  ds.PDS.foldl (fun tbl seg => seg.palettes.foldl (fun t p => t.set p.ID p) tbl) palette_list

/-- The loop of the `PGSReader.display_sets` generator: append each segment
to the in-progress group, close the group into a `DisplaySet` on every END
segment.  When the segment list ends with a non-empty group, the group is
dropped and the generator simply ends (second component `none`). -/
def runDisplaySets : List Segment → List Segment → List DisplaySet × Option PgsError
  | [], _ => ([], none)
  | s :: rest, group =>
    let group2 := group ++ [s]
    if s.type = SegmentType.END then
      match DisplaySet.init group2 with
      | .error e => ([], some e)
      | .ok ds =>
        let r := runDisplaySets rest []
        (ds :: r.1, r.2)
    else runDisplaySets rest group2

/-- Observable output of one full traversal of `PGSReader.display_sets` over
raw stream data: the yielded display sets plus the terminal exception, if
any (an exception of the underlying `segments` generator surfaces after the
display sets built from the segments that preceded it). -/
def displaySetsOutput (data : List Nat) : List DisplaySet × Option PgsError :=
  let so := segmentsOutput data
  let r := runDisplaySets so.1 []
  (r.1, match r.2 with
        | some e => some e
        | none => so.2)

/-- A caller-owned binary file object: its byte content and current read
position. -/
structure FileHandle where
  bytes : List Nat
  pos : Nat
deriving DecidableEq, Repr

/-- Models `file.read()` with no size argument: returns everything from the
current position and leaves the position at the end. -/
def FileHandle.readAll (f : FileHandle) : List Nat × FileHandle :=
  (f.bytes.drop f.pos, { f with pos := f.bytes.length })

/-- Class `PGSReader`: holds the bytes captured from the file at
construction time. -/
structure PGSReader where
  data : List Nat
deriving DecidableEq, Repr

/-- Models `PGSReader.__init__`: captures `file.read()` once, returning the
reader together with the file object in its post-construction state. -/
def PGSReader.ofFile (f : FileHandle) : PGSReader × FileHandle :=
  let r := f.readAll
  (⟨r.1⟩, r.2)

/-- One access of the `PGSReader.segments` property: a fresh `BytesIO`
cursor is created over the captured bytes, so every access traverses from
the start. -/
def PGSReader.segmentsRun (r : PGSReader) : List Segment × Option PgsError :=
  segmentsOutput r.data

/-- One access of the `PGSReader.display_sets` property. -/
def PGSReader.displaySetsRun (r : PGSReader) : List DisplaySet × Option PgsError :=
  displaySetsOutput r.data

/-- Decidable equality on `Except`, for evaluating decoder results on
concrete inputs. -/
instance instDecEqExcept {ε α : Type} [DecidableEq ε] [DecidableEq α] :
    DecidableEq (Except ε α)
  | .error a, .error b =>
    if h : a = b then .isTrue (by rw [h]) else .isFalse (fun hc => h (Except.error.inj hc))
  | .error _, .ok _ => .isFalse (fun hc => Except.noConfusion hc)
  | .ok _, .error _ => .isFalse (fun hc => Except.noConfusion hc)
  | .ok a, .ok b =>
    if h : a = b then .isTrue (by rw [h]) else .isFalse (fun hc => h (Except.ok.inj hc))

/-- Fixture: a complete END segment chunk whose 32-bit presentation
timestamp field holds 9000 (bytes 35, 40 at offsets 4 and 5). -/
def chunkPts9000 : List Nat := [80, 71, 0, 0, 35, 40, 0, 0, 0, 0, 128, 0, 0]

/-- Fixture: a 12-byte chunk, one byte short of a full header: magic "PG",
kind byte 128 (END) at offset 10, a single payload-size byte. -/
def chunkShort12 : List Nat := [80, 71, 0, 0, 0, 0, 0, 0, 0, 0, 128, 0]

/-- Fixture: a complete PDS segment chunk with the 3-byte payload
`[0, 0, 3]`: after `palette_id` and `version` the record area is the single
byte 3, shorter than one 5-byte record. -/
def chunkPdsShort : List Nat := [80, 71, 0, 0, 0, 0, 0, 0, 0, 0, 20, 0, 3, 0, 0, 3]

/-- Fixture: a complete PCS segment chunk with an 11-byte payload declaring
zero composition objects (state byte 0 = Normal). -/
def chunkPcsEmpty : List Nat :=
  [80, 71, 0, 0, 0, 0, 0, 0, 0, 0, 22, 0, 11, 0, 0, 0, 0, 0, 0, 0, 0, 0, 0, 0]

/-- Fixture: a complete END segment chunk with an empty payload. -/
def chunkEnd : List Nat := [80, 71, 0, 0, 0, 0, 0, 0, 0, 0, 128, 0, 0]

/-- Fixture: the section-8 example PCS payload: width 1920, height 1080,
frame rate 16, composition number 1, state 128 (EpochStart), no palette
update, palette 0, declared count 1, one uncropped 8-byte record
(object 1, window 0, offsets 0). -/
def pcsPayloadExample : List Nat :=
  [7, 128, 4, 56, 16, 0, 1, 128, 0, 0, 1, 0, 1, 0, 0, 0, 0, 0, 0]

/-- Fixture: the same payload declaring count 2 over the same single
record. -/
def pcsPayloadBadCount : List Nat :=
  [7, 128, 4, 56, 16, 0, 1, 128, 0, 0, 2, 0, 1, 0, 0, 0, 0, 0, 0]

/-- Fixture: a decoded PCS segment with no composition objects. -/
def segPcs0 : Segment :=
  { magic_number := [80, 71], presentation_timestamp_ms := 0,
    decoding_timestamp_ms := 0, type := SegmentType.PCS, size := 11,
    data := SegmentData.pcs
      { width := 0, height := 0, frame_rate := 0, number := 0,
        state := CompositionState.Normal, palette_update := false,
        palette_id := 0, num_compositions := 0, compositions := [] } }

/-- Fixture: a decoded END segment. -/
def segEnd0 : Segment :=
  { magic_number := [80, 71], presentation_timestamp_ms := 0,
    decoding_timestamp_ms := 0, type := SegmentType.END, size := 0,
    data := SegmentData.endSeg }

/-- Fixture: a decoded PDS segment defining the single palette record
`{ID 3, Y 10, Cr 20, Cb 30, Alpha 40}`. -/
def segPds0 : Segment :=
  { magic_number := [80, 71], presentation_timestamp_ms := 0,
    decoding_timestamp_ms := 0, type := SegmentType.PDS, size := 7,
    data := SegmentData.pds
      { palette_id := 0, version := 0,
        palettes := [{ ID := 3, Y := 10, Cr := 20, Cb := 30, Alpha := 40 }] } }

/-- Fixture: a display set built from the three fixture segments. -/
def dsFixture : DisplaySet :=
  { segments := [segPcs0, segPds0, segEnd0], PCS := segPcs0, WDS := [],
    PDS := [segPds0], ODS := [], END := segEnd0 }

/-! ## Helper lemmas -/

/-- Reading a field that lies inside the first `n` bytes is unaffected by
truncating the data to `n` bytes. -/
theorem getInt_take (l : List Nat) (n a b : Nat) (h : b ≤ n) :
    getInt (l.take n) a b = getInt l a b := by
  unfold getInt getBytes
  rw [List.drop_take, List.take_take]
  have hm : min (b - a) (n - a) = b - a := by omega
  rw [hm]

/-- A slice lying wholly past the end of the data is empty, so its
big-endian value is 0. -/
theorem getInt_of_length_le (l : List Nat) (a b : Nat) (h : l.length ≤ a) :
    getInt l a b = 0 := by
  unfold getInt getBytes
  rw [List.drop_eq_nil_of_le h]
  simp [intFromBytes]

/-- Big-endian characterisation of `intFromBytes`: appending one byte
multiplies the accumulated value by 256 and adds the byte. -/
theorem intFromBytes_snoc (l : List Nat) (b : Nat) :
    intFromBytes (l ++ [b]) = 256 * intFromBytes l + b := by
  simp [intFromBytes, List.foldl_append, Nat.mul_comm]

/-- Unfolding step of `parsePalettes` on a non-empty record area, with the
record fields expressed over the whole remaining data (each field lies
within the first 5 bytes, so the `take 5` of the source is immaterial). -/
theorem parsePalettes_cons (rest : List Nat) (h : rest ≠ []) :
    parsePalettes rest =
      { ID := getInt rest 0 1, Y := getInt rest 1 2, Cr := getInt rest 2 3,
        Cb := getInt rest 3 4, Alpha := getInt rest 4 5 } :: parsePalettes (rest.drop 5) := by
  rw [parsePalettes]
  simp only [h, dite_false]
  rw [getInt_take rest 5 0 1 (by omega), getInt_take rest 5 1 2 (by omega),
      getInt_take rest 5 2 3 (by omega), getInt_take rest 5 3 4 (by omega),
      getInt_take rest 5 4 5 (by omega)]

/-- Unfolding step of `parseCompositions` on an uncropped record. -/
theorem parseCompositions_cons_uncropped (rest : List Nat) (h : rest ≠ [])
    (hflag : getInt rest 3 4 = 0) :
    parseCompositions rest =
      { object_id := getInt rest 0 2, window_id := getInt rest 2 3, cropped := false,
        x_offset := getInt rest 4 6, y_offset := getInt rest 6 8 }
        :: parseCompositions (rest.drop 8) := by
  rw [parseCompositions]
  simp only [h, dite_false]
  rw [getInt_take rest 8 3 4 (by omega)]
  simp only [hflag, ne_eq, not_true_eq_false, if_false, ite_false]
  rw [getInt_take rest 8 0 2 (by omega), getInt_take rest 8 2 3 (by omega),
      getInt_take rest 8 4 6 (by omega), getInt_take rest 8 6 8 (by omega)]

/-- Unfolding step of `parseCompositions` on a cropped record: 8 further
bytes are consumed, and the crop fields are read at offsets 8..16 of the
16-byte double chunk. -/
theorem parseCompositions_cons_cropped (rest : List Nat) (h : rest ≠ [])
    (hflag : getInt rest 3 4 ≠ 0) :
    parseCompositions rest =
      { object_id := getInt rest 0 2, window_id := getInt rest 2 3, cropped := true,
        x_offset := getInt rest 4 6, y_offset := getInt rest 6 8,
        crop_x_offset := some (getInt rest 8 10), crop_y_offset := some (getInt rest 10 12),
        crop_width := some (getInt rest 12 14), crop_height := some (getInt rest 14 16) }
        :: parseCompositions (rest.drop 16) := by
  rw [parseCompositions]
  simp only [h, dite_false]
  rw [getInt_take rest 8 3 4 (by omega)]
  simp only [hflag, ne_eq, not_false_eq_true, if_true, ite_true]
  rw [getInt_take rest 8 0 2 (by omega), getInt_take rest 8 2 3 (by omega),
      getInt_take rest 8 4 6 (by omega), getInt_take rest 8 6 8 (by omega),
      getInt_take rest 16 8 10 (by omega), getInt_take rest 16 10 12 (by omega),
      getInt_take rest 16 12 14 (by omega), getInt_take rest 16 14 16 (by omega)]

/-- The PCS decoder fails only with the bad-state or count-mismatch
errors. -/
theorem pcsPostInit_error (d : List Nat) (e : PgsError)
    (h : PresentationCompositionSegment.postInit d = Except.error e) :
    e = PgsError.invalidCompositionState ∨ e = PgsError.compositionCountMismatch := by
  unfold PresentationCompositionSegment.postInit at h
  split at h
  · exact Or.inl (Except.error.inj h).symm
  · simp only [] at h
    split at h
    · exact Except.noConfusion h
    · exact Or.inr (Except.error.inj h).symm

/-- The WDS decoder fails only with the count-mismatch error. -/
theorem wdsPostInit_error (d : List Nat) (e : PgsError)
    (h : WindowDefinitionSegment.postInit d = Except.error e) :
    e = PgsError.windowCountMismatch := by
  unfold WindowDefinitionSegment.postInit at h
  simp only [] at h
  split at h
  · exact Except.noConfusion h
  · exact (Except.error.inj h).symm

/-- The ODS decoder fails only with the bad-flag or length-mismatch
errors. -/
theorem odsPostInit_error (d : List Nat) (e : PgsError)
    (h : ObjectDefinitionSegment.postInit d = Except.error e) :
    e = PgsError.invalidSequenceFlag ∨ e = PgsError.imageDataLengthMismatch := by
  unfold ObjectDefinitionSegment.postInit at h
  split at h
  · exact Or.inl (Except.error.inj h).symm
  · simp only [] at h
    split at h
    · exact Except.noConfusion h
    · exact Or.inr (Except.error.inj h).symm

/-- The errors a subclass `_post_init` can raise never include the two
errors of the header stage. -/
theorem postInitDispatch_error (t : SegmentType) (d : List Nat) (e : PgsError)
    (h : postInitDispatch t d = Except.error e) :
    e ≠ PgsError.invalidSegment ∧ e ≠ PgsError.unknownSegmentType := by
  cases t <;> simp only [postInitDispatch] at h
  case PDS => exact Except.noConfusion h
  case END => exact Except.noConfusion h
  case PCS =>
    cases hx : PresentationCompositionSegment.postInit d <;> rw [hx] at h
    · simp only [Except.map] at h
      cases h
      rcases pcsPostInit_error d _ hx with h1 | h1 <;> rw [h1] <;> exact ⟨by decide, by decide⟩
    · simp only [Except.map] at h
      exact Except.noConfusion h
  case WDS =>
    cases hx : WindowDefinitionSegment.postInit d <;> rw [hx] at h
    · simp only [Except.map] at h
      cases h
      rw [wdsPostInit_error d _ hx]
      exact ⟨by decide, by decide⟩
    · simp only [Except.map] at h
      exact Except.noConfusion h
  case ODS =>
    cases hx : ObjectDefinitionSegment.postInit d <;> rw [hx] at h
    · simp only [Except.map] at h
      cases h
      rcases odsPostInit_error d _ hx with h1 | h1 <;> rw [h1] <;> exact ⟨by decide, by decide⟩
    · simp only [Except.map] at h
      exact Except.noConfusion h

/-! ## Claims -/

/-- C3 counterexample: decoding a segment whose raw presentation timestamp
field holds 9000 ticks yields `presentation_timestamp_ms = 100.0`, not the
1000.0 milliseconds asserted by the claim. -/
theorem C3_counterexample :
    (makeSegment chunkPts9000).map Segment.presentation_timestamp_ms = Except.ok 100 ∧
    (100 : ℚ) ≠ 1000 := by
  constructor
  · norm_num [makeSegment, chunkPts9000, segmentInit, segmentTypeOfNat, postInitDispatch,
        getInt, getBytes, intFromBytes, Except.map]
  · norm_num

/-- C3 (amended): the header decoder converts the 32-bit presentation
timestamp from 90 kHz ticks to milliseconds by dividing by 90; in
particular a raw value of 9000 ticks decodes to exactly 100.0 milliseconds
(not 1000.0). -/
theorem C3_timestamp_conversion :
    (∀ chunk s, makeSegment chunk = Except.ok s →
        s.presentation_timestamp_ms = (getInt chunk 2 6 : ℚ) / 90) ∧
    (makeSegment chunkPts9000).map Segment.presentation_timestamp_ms = Except.ok 100 := by
  constructor
  · intro chunk s hs
    unfold makeSegment at hs
    cases ht : segmentTypeOfNat (getInt chunk 10 11) <;> simp only [ht] at hs
    · exact Except.noConfusion hs
    · rename_i t
      unfold segmentInit at hs
      by_cases hm : getBytes (chunk.take 13) 0 2 ≠ [80, 71]
      · rw [if_pos hm] at hs
        exact Except.noConfusion hs
      · rw [if_neg hm] at hs
        cases hx : postInitDispatch t (chunk.drop 13) <;>
          simp only [hx, Except.map] at hs
        · exact Except.noConfusion hs
        · cases hs
          rw [getInt_take chunk 13 2 6 (by omega)]
  · norm_num [makeSegment, chunkPts9000, segmentInit, segmentTypeOfNat, postInitDispatch,
        getInt, getBytes, intFromBytes, Except.map]

/-- C3 witness: the conversion law applied to the concrete 9000-tick END
chunk. -/
theorem C3_timestamp_conversion_witness :
    ({ magic_number := [80, 71], presentation_timestamp_ms := 100,
       decoding_timestamp_ms := 0, type := SegmentType.END, size := 0,
       data := SegmentData.endSeg } : Segment).presentation_timestamp_ms =
      (getInt chunkPts9000 2 6 : ℚ) / 90 := by
  have h : makeSegment chunkPts9000 =
      Except.ok { magic_number := [80, 71], presentation_timestamp_ms := 100,
                  decoding_timestamp_ms := 0, type := SegmentType.END, size := 0,
                  data := SegmentData.endSeg } := by
    norm_num [makeSegment, chunkPts9000, segmentInit, segmentTypeOfNat, postInitDispatch,
        getInt, getBytes, intFromBytes, Except.map]
  exact C3_timestamp_conversion.1 chunkPts9000 _ h

/-- C5 counterexample: a 12-byte chunk (fewer than 13 header bytes) with
magic "PG" and END kind byte decodes successfully instead of failing with
the MalformedHeader error (`InvalidSegmentError`). -/
theorem C5_counterexample :
    chunkShort12.length < 13 ∧
    makeSegment chunkShort12 =
      Except.ok { magic_number := [80, 71], presentation_timestamp_ms := 0,
                  decoding_timestamp_ms := 0, type := SegmentType.END, size := 0,
                  data := SegmentData.endSeg } := by
  constructor
  · norm_num [chunkShort12]
  · norm_num [makeSegment, chunkShort12, segmentInit, segmentTypeOfNat, postInitDispatch,
        getInt, getBytes, intFromBytes, Except.map]

/-- C5 (amended): a short chunk is not rejected for being short (missing
header bytes read as empty slices, and the chunk may even decode, as the
counterexample shows); a magic different from "PG" fails with
`InvalidSegmentError` (MalformedHeader) provided the kind byte at offset 10
is a known segment type, while an unknown kind byte fails with the
unknown-type `ValueError` before the magic is ever examined; and with magic
equal to "PG" the decoder never raises `InvalidSegmentError`. -/
theorem C5_header_validation :
    (∀ chunk t, segmentTypeOfNat (getInt chunk 10 11) = some t →
        getBytes (chunk.take 13) 0 2 ≠ [80, 71] →
        makeSegment chunk = Except.error PgsError.invalidSegment) ∧
    (∀ chunk, segmentTypeOfNat (getInt chunk 10 11) = none →
        makeSegment chunk = Except.error PgsError.unknownSegmentType) ∧
    (∀ chunk, getBytes (chunk.take 13) 0 2 = [80, 71] →
        makeSegment chunk ≠ Except.error PgsError.invalidSegment) := by
  refine ⟨?_, ?_, ?_⟩
  · intro chunk t ht hm
    unfold makeSegment
    simp only [ht]
    unfold segmentInit
    rw [if_pos hm]
  · intro chunk ht
    unfold makeSegment
    simp only [ht]
  · intro chunk hm hc
    unfold makeSegment at hc
    cases ht : segmentTypeOfNat (getInt chunk 10 11) <;> simp only [ht] at hc
    · exact absurd (Except.error.inj hc) (by decide)
    · rename_i t
      unfold segmentInit at hc
      rw [if_neg (by simp [hm])] at hc
      cases hx : postInitDispatch t (chunk.drop 13) <;>
        simp only [hx, Except.map] at hc
      · exact (postInitDispatch_error _ _ _ hx).1 (Except.error.inj hc)
      · exact Except.noConfusion hc

/-- C5 witness: the magic-mismatch law applied to a 13-byte chunk with a
zeroed magic and a known kind byte. -/
theorem C5_header_validation_witness :
    makeSegment [0, 0, 0, 0, 0, 0, 0, 0, 0, 0, 128, 0, 0] =
      Except.error PgsError.invalidSegment :=
  C5_header_validation.1 [0, 0, 0, 0, 0, 0, 0, 0, 0, 0, 128, 0, 0]
    SegmentType.END (by decide) (by decide)

/-- C6 counterexample: a complete PDS segment whose record area is a single
byte (remainder 1 after offset 2, not a multiple of 5) decodes successfully
into one palette record with the missing fields read as 0, instead of
failing with the TruncatedPayload error. -/
theorem C6_counterexample :
    makeSegment chunkPdsShort =
      Except.ok { magic_number := [80, 71], presentation_timestamp_ms := 0,
                  decoding_timestamp_ms := 0, type := SegmentType.PDS, size := 3,
                  data := SegmentData.pds
                    { palette_id := 0, version := 0,
                      palettes := [{ ID := 3, Y := 0, Cr := 0, Cb := 0, Alpha := 0 }] } } := by
  simp [makeSegment, chunkPdsShort, segmentInit, segmentTypeOfNat, postInitDispatch,
        PaletteDefinitionSegment.postInit, parsePalettes, getInt, getBytes, intFromBytes,
        Except.map]

/-- C6 (amended): the PaletteDefinition decoder reads palette_id at payload
offset 0 and version at offset 1, then parses the remaining bytes as
consecutive 5-byte records until exhaustion; a trailing remainder shorter
than 5 bytes does not fail: it becomes a final record whose out-of-range
fields decode as 0. -/
theorem C6_pds_parsing :
    (∀ data, PaletteDefinitionSegment.postInit data =
        { palette_id := getInt data 0 1, version := getInt data 1 2,
          palettes := parsePalettes (data.drop 2) }) ∧
    (∀ rest, rest ≠ [] → parsePalettes rest =
        { ID := getInt rest 0 1, Y := getInt rest 1 2, Cr := getInt rest 2 3,
          Cb := getInt rest 3 4, Alpha := getInt rest 4 5 } :: parsePalettes (rest.drop 5)) ∧
    (∀ rest i, rest.length ≤ i → getInt rest i (i + 1) = 0) ∧
    parsePalettes [3] = [{ ID := 3, Y := 0, Cr := 0, Cb := 0, Alpha := 0 }] := by
  refine ⟨fun data => rfl, parsePalettes_cons, ?_, ?_⟩
  · intro rest i hi
    exact getInt_of_length_le rest i (i + 1) hi
  · simp [parsePalettes, getInt, getBytes, intFromBytes]

/-- C6 witness: the record-step law applied to the 1-byte record area. -/
theorem C6_pds_parsing_witness :
    parsePalettes [3] =
      { ID := getInt [3] 0 1, Y := getInt [3] 1 2, Cr := getInt [3] 2 3,
        Cb := getInt [3] 3 4, Alpha := getInt [3] 4 5 } :: parsePalettes ([3].drop 5) :=
  C6_pds_parsing.2.1 [3] (by decide)

/-- C7 (confirmed): when the sequence-flag byte parses, the ObjectDefinition
decoder computes the declared length as the 24-bit big-endian field at
payload offsets 4..7 minus 4, stores the bytes after offset 11 as the
uninterpreted image buffer when its length equals the declared length, and
fails with the ImageDataLengthMismatch error (`AssertionError`) whenever
the lengths differ. -/
theorem C7_ods_length_check :
    ∀ data fl, sequenceFlagOfNat (getInt data 3 4) = some fl →
      (((data.drop 11).length : Int) ≠ (getInt data 4 7 : Int) - 4 →
          ObjectDefinitionSegment.postInit data =
            Except.error PgsError.imageDataLengthMismatch) ∧
      (((data.drop 11).length : Int) = (getInt data 4 7 : Int) - 4 →
          ObjectDefinitionSegment.postInit data =
            Except.ok { id := getInt data 0 2, version := getInt data 2 3,
                        in_sequence := fl, image_data_len := (getInt data 4 7 : Int) - 4,
                        image_width := getInt data 7 9, image_height := getInt data 9 11,
                        image_data := data.drop 11 }) := by
  intro data fl hfl
  constructor
  · intro hne
    unfold ObjectDefinitionSegment.postInit
    rw [hfl]
    simp only [hne, if_false, ite_false]
  · intro heq
    unfold ObjectDefinitionSegment.postInit
    rw [hfl]
    simp only [heq, if_pos, ite_true]

/-- C7 witness: the mismatch law applied to an 11-byte payload declaring 5
image bytes but carrying none. -/
theorem C7_ods_length_check_witness :
    ObjectDefinitionSegment.postInit [0, 0, 0, 64, 0, 0, 9, 0, 0, 0, 0] =
      Except.error PgsError.imageDataLengthMismatch :=
  (C7_ods_length_check [0, 0, 0, 64, 0, 0, 9, 0, 0, 0, 0] SequenceFlag.Last
    (by decide)).1 (by decide)

/-- C9 (confirmed): field extraction is total and never raises on short
data: the extractor is the big-endian value of whatever the clamped slice
yields (empty slice giving 0), a slice wholly past the end reads 0, a slice
partly past the end yields fewer bytes, and a PDS payload shorter than the
fixed layout decodes its missing numeric fields as 0 instead of reporting
truncation. -/
theorem C9_field_extraction_total :
    (∀ data a b, getInt data a b = intFromBytes (getBytes data a b)) ∧
    (∀ bs b, intFromBytes (bs ++ [b]) = 256 * intFromBytes bs + b) ∧
    (∀ data a b, data.length ≤ a → getInt data a b = 0) ∧
    (∀ data a b, (getBytes data a b).length ≤ b - a ∧
        (getBytes data a b).length ≤ data.length - a) ∧
    PaletteDefinitionSegment.postInit [7] =
      { palette_id := 7, version := 0, palettes := [] } := by
  refine ⟨fun data a b => rfl, intFromBytes_snoc, getInt_of_length_le, ?_, ?_⟩
  · intro data a b
    unfold getBytes
    constructor <;> · rw [List.length_take, List.length_drop]; omega
  · simp [PaletteDefinitionSegment.postInit, parsePalettes, getInt, getBytes, intFromBytes]

/-- C9 witness: the past-the-end law applied to a 2-byte string and the
slice 5..7. -/
theorem C9_field_extraction_total_witness : getInt [1, 2] 5 7 = 0 :=
  C9_field_extraction_total.2.2.1 [1, 2] 5 7 (by decide)

/-- C4 (confirmed): the PresentationComposition decoder parses
composition-object records from payload offset 11 to exhaustion, each
record 8 bytes (object_id u16, window_id u8, cropped u8, x_offset u16,
y_offset u16) plus 8 further crop bytes exactly when the cropped flag is
set; a mismatch between the parsed record count and the declared count at
offset 10 fails with the FieldCountMismatch error (`AssertionError`); the
section-8 example payload decodes to is_start true with exactly one
uncropped CompositionObject, and declared count 2 over the same single
record fails. -/
theorem C4_pcs_decoder :
    (∀ data st, compositionStateOfNat (getInt data 7 8) = some st →
        ((parseCompositions (data.drop 11)).length ≠ getInt data 10 11 →
            PresentationCompositionSegment.postInit data =
              Except.error PgsError.compositionCountMismatch) ∧
        ((parseCompositions (data.drop 11)).length = getInt data 10 11 →
            PresentationCompositionSegment.postInit data =
              Except.ok { width := getInt data 0 2, height := getInt data 2 4,
                          frame_rate := getInt data 4 5, number := getInt data 5 7,
                          state := st, palette_update := getInt data 8 9 ≠ 0,
                          palette_id := getInt data 9 10,
                          num_compositions := getInt data 10 11,
                          compositions := parseCompositions (data.drop 11) })) ∧
    (∀ rest, rest ≠ [] → getInt rest 3 4 = 0 →
        parseCompositions rest =
          { object_id := getInt rest 0 2, window_id := getInt rest 2 3, cropped := false,
            x_offset := getInt rest 4 6, y_offset := getInt rest 6 8 }
            :: parseCompositions (rest.drop 8)) ∧
    (∀ rest, rest ≠ [] → getInt rest 3 4 ≠ 0 →
        parseCompositions rest =
          { object_id := getInt rest 0 2, window_id := getInt rest 2 3, cropped := true,
            x_offset := getInt rest 4 6, y_offset := getInt rest 6 8,
            crop_x_offset := some (getInt rest 8 10),
            crop_y_offset := some (getInt rest 10 12),
            crop_width := some (getInt rest 12 14),
            crop_height := some (getInt rest 14 16) }
            :: parseCompositions (rest.drop 16)) ∧
    parseCompositions [] = [] ∧
    ((PresentationCompositionSegment.postInit pcsPayloadExample).map
        (fun p => (p.is_start, p.compositions)) =
      Except.ok (true, [{ object_id := 1, window_id := 0, cropped := false,
                          x_offset := 0, y_offset := 0 }])) ∧
    PresentationCompositionSegment.postInit pcsPayloadBadCount =
      Except.error PgsError.compositionCountMismatch := by
  refine ⟨?_, parseCompositions_cons_uncropped, parseCompositions_cons_cropped, ?_, ?_, ?_⟩
  · intro data st hst
    constructor
    · intro hne
      unfold PresentationCompositionSegment.postInit
      simp only [hst]
      rw [if_neg hne]
    · intro heq
      unfold PresentationCompositionSegment.postInit
      simp only [hst]
      rw [if_pos heq]
  · simp [parseCompositions]
  · simp [PresentationCompositionSegment.postInit, pcsPayloadExample, compositionStateOfNat,
        parseCompositions, getInt, getBytes, intFromBytes, Except.map,
        PresentationCompositionSegment.is_start]
  · simp [PresentationCompositionSegment.postInit, pcsPayloadBadCount, compositionStateOfNat,
        parseCompositions, getInt, getBytes, intFromBytes]

/-- C4 witness: the count-mismatch law applied to the bad-count example
payload. -/
theorem C4_pcs_decoder_witness :
    PresentationCompositionSegment.postInit pcsPayloadBadCount =
      Except.error PgsError.compositionCountMismatch :=
  (C4_pcs_decoder.1 pcsPayloadBadCount CompositionState.EpochStart (by decide)).1
    (by simp [pcsPayloadBadCount, parseCompositions, getInt, getBytes, intFromBytes])

/-- C1 counterexample: a stream of two PCS segments closed by one END
segment assembles into exactly one DisplaySet whose group contains two
PresentationComposition segments, with no error of any kind: the group is
not rejected with the MultipleCompositionSegments error the claim
requires. -/
theorem C1_counterexample :
    ((displaySetsOutput (chunkPcsEmpty ++ chunkPcsEmpty ++ chunkEnd)).1).map
        (fun ds => ds.segments.countP (fun s => s.type = SegmentType.PCS)) = [2] ∧
    (displaySetsOutput (chunkPcsEmpty ++ chunkPcsEmpty ++ chunkEnd)).2 = none := by
  constructor <;>
    simp [displaySetsOutput, segmentsOutput, segmentChunks, runSegments, runDisplaySets,
        makeSegment, segmentInit, segmentTypeOfNat, postInitDispatch, getInt, getBytes,
        intFromBytes, Except.map, PresentationCompositionSegment.postInit,
        compositionStateOfNat, parseCompositions, DisplaySet.init, List.countP,
        List.countP.go, List.find?, chunkPcsEmpty, chunkEnd]

/-- C1 (amended): on closing a group, `DisplaySet.__init__` fails (with
`StopIteration` from `next`, not a dedicated MissingCompositionSegment
error) when the group contains no PresentationComposition segment; when at
least one PCS and an END are present the group is accepted, the stored PCS
being the first PCS of the group — a second PCS is not rejected. -/
theorem C1_display_set_construction :
    (∀ group, (∀ s ∈ group, s.type ≠ SegmentType.PCS) →
        DisplaySet.init group = Except.error PgsError.stopIteration) ∧
    (∀ group pcsSeg, group.find? (fun s => s.type = SegmentType.PCS) = some pcsSeg →
        (∃ e ∈ group, e.type = SegmentType.END) →
        ∃ ds, DisplaySet.init group = Except.ok ds ∧ ds.PCS = pcsSeg ∧
          ds.segments = group) := by
  constructor
  · intro group hnone
    unfold DisplaySet.init
    have hfind : group.find? (fun s => s.type = SegmentType.PCS) = none := by
      rw [List.find?_eq_none]
      intro s hs
      simpa using hnone s hs
    simp only [hfind]
  · intro group pcsSeg hfind hend
    unfold DisplaySet.init
    obtain ⟨e, he, het⟩ := hend
    have hfe : (group.find? (fun s => s.type = SegmentType.END)).isSome := by
      rw [List.find?_isSome]
      exact ⟨e, he, by simpa using het⟩
    cases hfind2 : group.find? (fun s => s.type = SegmentType.END) with
    | none => rw [hfind2] at hfe; exact Bool.noConfusion hfe
    | some endFound =>
      simp only [hfind, hfind2]
      exact ⟨_, rfl, rfl, rfl⟩

/-- C1 witness: the zero-PCS law applied to a group holding only an END
segment. -/
theorem C1_display_set_construction_witness :
    DisplaySet.init [segEnd0] = Except.error PgsError.stopIteration :=
  C1_display_set_construction.1 [segEnd0] (by decide)

/-- C2 counterexample: a stream holding one complete PCS segment and no END
segment: the segments generator yields one segment (the group is
non-empty), yet the display-set generator yields no DisplaySet and no error
or signal of any kind — the truncation is silently discarded, not
surfaced. -/
theorem C2_counterexample :
    (segmentsOutput chunkPcsEmpty).1.length = 1 ∧
    (segmentsOutput chunkPcsEmpty).2 = none ∧
    displaySetsOutput chunkPcsEmpty = ([], none) := by
  refine ⟨?_, ?_, ?_⟩ <;>
    simp [displaySetsOutput, segmentsOutput, segmentChunks, runSegments, runDisplaySets,
        makeSegment, segmentInit, segmentTypeOfNat, postInitDispatch, getInt, getBytes,
        intFromBytes, Except.map, PresentationCompositionSegment.postInit,
        compositionStateOfNat, parseCompositions, chunkPcsEmpty]

/-- C2 (amended): when the segment stream ends while a group has
accumulated without a terminating End segment, no DisplaySet is emitted for
the incomplete group and the generator simply ends: the truncation is
silently discarded, with no error or signal to the caller. -/
theorem C2_truncation_silent :
    ∀ segs group, (∀ s ∈ segs, s.type ≠ SegmentType.END) →
      runDisplaySets segs group = ([], none) := by
  intro segs
  induction segs with
  | nil => intro group _; rfl
  | cons s rest ih =>
    intro group hno
    unfold runDisplaySets
    rw [if_neg (hno s (List.mem_cons_self s rest))]
    exact ih (group ++ [s]) (fun x hx => hno x (List.mem_cons_of_mem s hx))

/-- C2 witness: the silent-drop law applied to a one-segment trailing
group. -/
theorem C2_truncation_silent_witness :
    runDisplaySets [segPcs0] [] = ([], none) :=
  C2_truncation_silent [segPcs0] [] (by decide)

/-- Writing records into a palette table never changes its length. -/
theorem foldl_set_length (rs : List Palette) (tbl : List Palette) :
    (rs.foldl (fun t p => t.set p.ID p) tbl).length = tbl.length := by
  induction rs generalizing tbl with
  | nil => rfl
  | cons p rest ih => rw [List.foldl_cons, ih, List.length_set]

/-- Last-write-wins characterisation of the record-writing fold: slot `i`
holds the last record with ID `i`, or the original entry when no record has
ID `i`. -/
theorem foldl_set_getElem (rs : List Palette) (tbl : List Palette) (i : Nat)
    (hi : i < tbl.length) :
    (rs.foldl (fun t p => t.set p.ID p) tbl)[i]? =
      match (rs.filter (fun p => p.ID = i)).getLast? with
      | some p => some p
      | none => tbl[i]? := by
  induction rs generalizing tbl with
  | nil => simp
  | cons p rest ih =>
    rw [List.foldl_cons]
    rw [ih (tbl.set p.ID p) (by rw [List.length_set]; exact hi)]
    by_cases hpi : p.ID = i
    · rw [List.filter_cons_of_pos (by simpa using hpi)]
      cases hfr : (rest.filter (fun q => q.ID = i)).getLast? with
      | some q =>
        have hne : rest.filter (fun q => q.ID = i) ≠ [] := by
          intro hnil
          rw [hnil] at hfr
          exact Option.noConfusion hfr
        obtain ⟨c, cs, hcs⟩ := List.exists_cons_of_ne_nil hne
        rw [hcs, List.getLast?_cons_cons, ← hcs, hfr]
      | none =>
        have hnil : rest.filter (fun q => q.ID = i) = [] := by
          rwa [← List.getLast?_eq_none_iff]
        rw [hnil]
        subst hpi
        simp [List.getElem?_set_self, hi]
    · rw [List.filter_cons_of_neg (by simpa using hpi)]
      rw [List.getElem?_set_ne hpi]

/-- Folding the per-segment record lists one segment at a time equals
folding the flattened record list. -/
theorem foldl_segments_flatten (L : List Segment) (tbl : List Palette) :
    L.foldl (fun t seg => seg.palettes.foldl (fun t2 p => t2.set p.ID p) t) tbl =
      ((L.map Segment.palettes).flatten).foldl (fun t p => t.set p.ID p) tbl := by
  induction L generalizing tbl with
  | nil => rfl
  | cons s rest ih =>
    rw [List.foldl_cons, List.map_cons, List.flatten_cons, List.foldl_append]
    exact ih (s.palettes.foldl (fun t2 p => t2.set p.ID p) tbl)

/-- Slot `i` of the fresh 256-entry table is transparent black with
`ID = i`. -/
theorem initial_palette_getElem (i : Nat) (hi : i < 256) :
    (((List.range 256).map
        (fun k => ({ ID := k, Y := 0, Cr := 0, Cb := 0, Alpha := 0 } : Palette))))[i]? =
      some { ID := i, Y := 0, Cr := 0, Cb := 0, Alpha := 0 } := by
  simp [List.getElem?_map, List.getElem?_range, hi]

/-- C8 (confirmed): for every display set whose palette records carry
one-byte IDs (as every decoded record does), `get_palettes` returns a table
of exactly 256 entries; every slot starts as transparent black with
`ID = index` and is overwritten by `table[record.ID] = record` for each PDS
segment in segment order and each record in record order, so on ID
collision the later write wins (slot `i` holds the last record with ID `i`
in the flattened traversal order) and every index never written retains its
initial record (`ID = index`, `Alpha = 0`). -/
theorem C8_palette_resolution :
    ∀ ds : DisplaySet, (∀ s ∈ ds.PDS, ∀ p ∈ s.palettes, p.ID < 256) →
      (ds.get_palettes).length = 256 ∧
      (∀ i, i < 256 →
          (ds.get_palettes)[i]? =
            match (((ds.PDS.map Segment.palettes).flatten).filter
                (fun p => p.ID = i)).getLast? with
            | some p => some p
            | none => some { ID := i, Y := 0, Cr := 0, Cb := 0, Alpha := 0 }) ∧
      (∀ i, i < 256 → (∀ s ∈ ds.PDS, ∀ p ∈ s.palettes, p.ID ≠ i) →
          (ds.get_palettes)[i]? =
            some { ID := i, Y := 0, Cr := 0, Cb := 0, Alpha := 0 }) := by
  intro ds hids
  have hlen0 :
      (((List.range 256).map
        (fun k => ({ ID := k, Y := 0, Cr := 0, Cb := 0, Alpha := 0 } : Palette)))).length
        = 256 := by
    rw [List.length_map, List.length_range]
  have hchar : ∀ i, i < 256 →
      (ds.get_palettes)[i]? =
        match (((ds.PDS.map Segment.palettes).flatten).filter
            (fun p => p.ID = i)).getLast? with
        | some p => some p
        | none => some { ID := i, Y := 0, Cr := 0, Cb := 0, Alpha := 0 } := by
    intro i hi
    unfold DisplaySet.get_palettes
    rw [foldl_segments_flatten]
    rw [foldl_set_getElem _ _ i (by rw [hlen0]; exact hi)]
    rw [initial_palette_getElem i hi]
  refine ⟨?_, hchar, ?_⟩
  · unfold DisplaySet.get_palettes
    rw [foldl_segments_flatten, foldl_set_length, hlen0]
  · intro i hi hnone
    rw [hchar i hi]
    have hfil : ((ds.PDS.map Segment.palettes).flatten).filter
        (fun p => p.ID = i) = [] := by
      rw [List.filter_eq_nil_iff]
      intro p hp
      rw [List.mem_flatten] at hp
      obtain ⟨l, hl, hpl⟩ := hp
      rw [List.mem_map] at hl
      obtain ⟨seg, hseg, rfl⟩ := hl
      simpa using hnone seg hseg p hpl
    rw [hfil]
    rfl

/-- C8 witness: the characterisation applied to the fixture display set:
slot 3 holds the fixture record and the table has 256 entries. -/
theorem C8_palette_resolution_witness :
    (dsFixture.get_palettes).length = 256 ∧
    (dsFixture.get_palettes)[3]? =
      some { ID := 3, Y := 10, Cr := 20, Cb := 30, Alpha := 40 } := by
  have h := C8_palette_resolution dsFixture (by decide)
  refine ⟨h.1, ?_⟩
  rw [h.2.1 3 (by omega)]
  simp [dsFixture, segPds0, Segment.palettes]

/-- C10 (confirmed): the reader captures the entire readable content of the
file object once at construction (leaving the file position at the end),
and both generator properties are pure functions of the captured bytes:
any two readers holding equal bytes — in particular the same reader
traversed twice — produce identical segment sequences and identical
display-set sequences, with no dependence on the file object after
construction. -/
theorem C10_reader_purity :
    (∀ f : FileHandle, (PGSReader.ofFile f).1.data = f.bytes.drop f.pos ∧
        (PGSReader.ofFile f).2 = { bytes := f.bytes, pos := f.bytes.length }) ∧
    (∀ r1 r2 : PGSReader, r1.data = r2.data →
        r1.segmentsRun = r2.segmentsRun ∧ r1.displaySetsRun = r2.displaySetsRun) := by
  refine ⟨fun f => ⟨rfl, rfl⟩, ?_⟩
  intro r1 r2 h
  unfold PGSReader.segmentsRun PGSReader.displaySetsRun
  rw [h]
  exact ⟨rfl, rfl⟩

/-- C10 witness: two readers built from distinct file objects whose
readable content agrees produce the same segments output. -/
theorem C10_reader_purity_witness :
    ((PGSReader.ofFile { bytes := chunkEnd, pos := 0 }).1).segmentsRun =
      ((PGSReader.ofFile { bytes := 7 :: chunkEnd, pos := 1 }).1).segmentsRun :=
  (C10_reader_purity.2 _ _ (by decide)).1

end PGS
